import Mathlib

/-!
Verification of the packaging manifest `setup.py` of the ESL repository.

The script performs two module-level file reads (`README.md`, then
`LICENSE`), both assigned to the variable `long_description`, discovers
sub-packages with setuptools' `find_packages`, and hands a fully
populated descriptor record to `setup(...)`.

The embedding below models the filesystem as a partial map from file
names to contents together with the directory tree that package
discovery scans, the two `with open(...)` blocks as event-traced scoped
reads, and the script itself as a function producing the list of
filesystem events together with either the constructed descriptor or a
missing-file error.
-/

namespace ESLSetup

/-- Filesystem events emitted by a `with open(...) as fh: fh.read()`
block: successful open, a full read, the close performed when the block
is left, and a failed open (Python raises `FileNotFoundError` and no
handle is acquired). -/
inductive FsEvent where
  | opened (file : String)
  | readAll (file : String)
  | closed (file : String)
  | openFailed (file : String)
deriving DecidableEq

/-- The file a filesystem event refers to. -/
def FsEvent.file : FsEvent → String
  | .opened n => n
  | .readAll n => n
  | .closed n => n
  | .openFailed n => n

/-- Errors the script can raise: only missing-file errors
(`FileNotFoundError`) are possible in `setup.py`. -/
inductive PyError where
  | fileNotFound (file : String)
deriving DecidableEq

/-- A directory in the working tree: its name, whether it carries the
importable sub-package marker (`__init__.py`), and its child
directories. -/
inductive DirTree where
  | dir (name : String) (marker : Bool) (children : List DirTree)

/-- The state the script runs against: the contents of the readable
files of the working directory, and the directory tree that package
discovery scans. -/
structure WorkState where
  files : String → Option String
  tree : List DirTree

mutual

/-- Modelled from the spec: setuptools' `find_packages` is not part of
this repository's source; per the spec it "scans the working directory
recursively for importable sub-package markers" and returns "the set of
their dotted paths", an empty result (not an error) if none are found.
This function scans one directory: it reports the directory's dotted
path if the directory carries the marker, then scans its children. -/
def findPkgsTree (pre : String) : DirTree → List String
  | .dir n m cs =>
    let dotted := if pre = "" then n else pre ++ "." ++ n
    (if m then [dotted] else []) ++ findPkgsForest dotted cs

/-- Modelled from the spec: the recursive scan of a list of sibling
directories, concatenating the dotted paths found in each. -/
def findPkgsForest (pre : String) : List DirTree → List String
  | [] => []
  | t :: ts => findPkgsTree pre t ++ findPkgsForest pre ts

end

mutual

/-- Number of importable sub-package markers in one directory tree. -/
def markerCountTree : DirTree → Nat
  | .dir _ m cs => (if m then 1 else 0) + markerCountForest cs

/-- Number of importable sub-package markers in a list of trees. -/
def markerCountForest : List DirTree → Nat
  | [] => 0
  | t :: ts => markerCountTree t + markerCountForest ts

end

/-- Modelled from the spec: `find_packages()` called with no arguments
scans the whole working directory. -/
def find_packages (wd : List DirTree) : List String :=
  findPkgsForest "" wd

/-- One `with open(name, "r") as fh: ... fh.read() ...` block. If the
file is absent the open raises and no handle is acquired; otherwise the
handle is opened, the contents are read in full, and the `with` block
closes the handle on exit. Returns the emitted events and the contents
read, if any. -/
def withOpenRead (files : String → Option String) (name : String) :
    List FsEvent × Option String :=
  match files name with
  | none => ([.openFailed name], none)
  | some c => ([.opened name, .readAll name, .closed name], some c)

/-- The descriptor record handed to `setup(...)`, one field per keyword
argument of the call in `setup.py`. -/
structure PackageDescriptor where
  name : String
  version : String
  author : String
  author_email : String
  description : String
  long_description : String
  long_description_content_type : String
  url : String
  packages : List String
  install_requires : List String
  license : String
  classifiers : List String
  python_requires : String
deriving DecidableEq

/-- The `install_requires` list literal of `setup.py`, in declared
order; the `ml-datasets` entry of the source is commented out and hence
not an element. -/
def install_requires : List String :=
  [ "numpy>=1.19.0",
    "matplotlib>=3.2.2",
    "scipy>=1.5.1",
    "tqdm>=4.47.0",
    "flake8>=3.8.3",
    "black>=19.10b0",
    "scikit-learn>=0.23.1",
    "pandas==1.1.0" ]

/-- The `classifiers` list literal of `setup.py`. -/
def classifiers : List String :=
  [ "Programming Language :: Python :: 3",
    "Operating System :: OS Independent" ]

/-- Whether the first list of characters is an initial segment of the
second. -/
def beginsWith : List Char → List Char → Bool
  | [], _ => true
  | _ :: _, [] => false
  | p :: ps, c :: cs => (p == c) && beginsWith ps cs

/-- Split a list of characters at the first occurrence of the separator,
returning the parts before and after it, or `none` when the separator
does not occur. -/
def splitOnce (sep : List Char) : List Char → Option (List Char × List Char)
  | [] => none
  | c :: cs =>
    if beginsWith sep (c :: cs) then some ([], (c :: cs).drop sep.length)
    else
      match splitOnce sep cs with
      | some (l, r) => some (c :: l, r)
      | none => none

/-- A dependency specification parsed into a (name, operator, version)
triple, splitting at a `>=` lower bound or, failing that, at a `==`
exact pin. -/
def parseDep (s : String) : Option (String × String × String) :=
  match splitOnce ">=".toList s.toList with
  | some (n, v) => some (String.mk n, ">=", String.mk v)
  | none =>
    match splitOnce "==".toList s.toList with
    | some (n, v) => some (String.mk n, "==", String.mk v)
    | none => none

set_option linter.unusedVariables false in
/-- The whole module-level script of `setup.py`: read `README.md` into
`long_description`, then read `LICENSE` into the same variable (the
second assignment shadows the first), then build the descriptor passed
to `setup(...)`. Returns the filesystem events emitted and either the
constructed descriptor or the missing-file error that aborted the
script. -/
def runScript (st : WorkState) : List FsEvent × Except PyError PackageDescriptor :=
  match withOpenRead st.files "README.md" with
  | (ev₁, none) => (ev₁, .error (.fileNotFound "README.md"))
  | (ev₁, some readmeText) =>
    let long_description := readmeText
    match withOpenRead st.files "LICENSE" with
    | (ev₂, none) => (ev₁ ++ ev₂, .error (.fileNotFound "LICENSE"))
    | (ev₂, some licenseText) =>
      let long_description := licenseText
      (ev₁ ++ ev₂, .ok
        { name := "esl"
          version := "0.0.1"
          author := "Arief Koesdwiady"
          author_email := "ariefbarkah@gmail.com"
          description := "This repo contains python implementation of the book Elements of Statistical Learning"
          long_description := long_description
          long_description_content_type := "text/markdown"
          url := "https://github.com/abkoesdw/The-Elements-of-Statistical-Learning-Python-Codes.git"
          packages := find_packages st.tree
          install_requires := install_requires
          license := "MIT License"
          classifiers := classifiers
          python_requires := ">=3" })

/-- A sample working state with both documents present. -/
def sampleState : WorkState where
  files := fun n =>
    if n = "README.md" then some "# ESL companion code"
    else if n = "LICENSE" then some "MIT License text"
    else none
  tree := [.dir "esl" true [.dir "ch2" true []]]

/-- A working state whose license document is readable but empty. -/
def emptyLicenseState : WorkState where
  files := fun n =>
    if n = "README.md" then some "# ESL companion code"
    else if n = "LICENSE" then some ""
    else none
  tree := []

/-- A working state with no readable files at all. -/
def noFilesState : WorkState where
  files := fun _ => none
  tree := []

/-- A working state with only the readme document present. -/
def readmeOnlyState : WorkState where
  files := fun n => if n = "README.md" then some "# ESL companion code" else none
  tree := []

/-- The same readme, license and tree as `sampleState`, with an extra
unrelated readable file. -/
def sampleStateExtra : WorkState where
  files := fun n =>
    if n = "README.md" then some "# ESL companion code"
    else if n = "LICENSE" then some "MIT License text"
    else if n = "Makefile" then some "all:"
    else none
  tree := [.dir "esl" true [.dir "ch2" true []]]

deriving instance DecidableEq for Except

/-- The descriptor `runScript` constructs on `sampleState`. -/
def sampleDescriptor : PackageDescriptor where
  name := "esl"
  version := "0.0.1"
  author := "Arief Koesdwiady"
  author_email := "ariefbarkah@gmail.com"
  description := "This repo contains python implementation of the book Elements of Statistical Learning"
  long_description := "MIT License text"
  long_description_content_type := "text/markdown"
  url := "https://github.com/abkoesdw/The-Elements-of-Statistical-Learning-Python-Codes.git"
  packages := ["esl", "esl.ch2"]
  install_requires := install_requires
  license := "MIT License"
  classifiers := classifiers
  python_requires := ">=3"

/-- C1: whenever both `README.md` and `LICENSE` are readable, the
constructed descriptor's `long_description` equals the license
document's contents exactly: the assignment from the readme is
overwritten by the assignment from the license, so the final value is
independent of the readme's contents (last write wins). -/
theorem long_description_equals_license (st : WorkState) (r l : String)
    (h₁ : st.files "README.md" = some r) (h₂ : st.files "LICENSE" = some l) :
    (runScript st).2.map PackageDescriptor.long_description = Except.ok l := by
  simp [runScript, withOpenRead, h₁, h₂, Except.map]

/-- Witness for C1 at `sampleState`. -/
theorem long_description_equals_license_witness :
    (runScript sampleState).2.map PackageDescriptor.long_description =
      Except.ok "MIT License text" :=
  long_description_equals_license sampleState "# ESL companion code" "MIT License text"
    (by decide) (by decide)

/-- C2 counterexample: on a working directory whose readme and license
are both readable but whose license document is empty, construction
succeeds and `long_description` is the empty string, so the claimed
non-emptiness fails. -/
theorem long_description_empty_license_cex :
    emptyLicenseState.files "README.md" = some "# ESL companion code" ∧
    emptyLicenseState.files "LICENSE" = some "" ∧
    (runScript emptyLicenseState).2.map PackageDescriptor.long_description =
      Except.ok "" := by
  exact ⟨by decide, by decide, by decide⟩

/-- C2 amended: whenever both documents are readable, construction
succeeds and `long_description` equals the license document's contents;
in particular it is non-empty whenever the license document is
non-empty. -/
theorem long_description_nonempty_of_license_nonempty (st : WorkState) (r l : String)
    (h₁ : st.files "README.md" = some r) (h₂ : st.files "LICENSE" = some l)
    (h₃ : l ≠ "") :
    (runScript st).2.map PackageDescriptor.long_description = Except.ok l ∧
    (runScript st).2.map PackageDescriptor.long_description ≠ Except.ok "" := by
  have hld := long_description_equals_license st r l h₁ h₂
  exact ⟨hld, by rw [hld]; simpa using h₃⟩

/-- Witness for the amended C2 at `sampleState`. -/
theorem long_description_nonempty_witness :
    (runScript sampleState).2.map PackageDescriptor.long_description =
        Except.ok "MIT License text" ∧
    (runScript sampleState).2.map PackageDescriptor.long_description ≠
        Except.ok "" :=
  long_description_nonempty_of_license_nonempty sampleState
    "# ESL companion code" "MIT License text" (by decide) (by decide) (by decide)

/-- C3: when `README.md` is absent the script fails with a missing-file
error on `README.md`, the only filesystem event is the failed open of
`README.md`, and in particular no event touches `LICENSE`. -/
theorem readme_absent_fails_before_license (st : WorkState)
    (h : st.files "README.md" = none) :
    runScript st = ([.openFailed "README.md"], .error (.fileNotFound "README.md")) ∧
    ∀ e ∈ (runScript st).1, FsEvent.file e ≠ "LICENSE" := by
  have hrun : runScript st =
      ([.openFailed "README.md"], .error (.fileNotFound "README.md")) := by
    simp [runScript, withOpenRead, h]
  refine ⟨hrun, ?_⟩
  rw [hrun]
  intro e he
  simp only [List.mem_singleton] at he
  subst he
  decide

/-- Witness for C3 at `noFilesState`. -/
theorem readme_absent_fails_before_license_witness :
    runScript noFilesState =
        ([.openFailed "README.md"], .error (.fileNotFound "README.md")) ∧
    ∀ e ∈ (runScript noFilesState).1, FsEvent.file e ≠ "LICENSE" :=
  readme_absent_fails_before_license noFilesState (by decide)

/-- C4: when `README.md` is readable but `LICENSE` is absent, the script
fails with a missing-file error on `LICENSE`, and the event trace shows
the readme read completing in full (open, read, close) strictly before
the failing open of the license file. -/
theorem license_absent_fails_after_readme (st : WorkState) (r : String)
    (h₁ : st.files "README.md" = some r) (h₂ : st.files "LICENSE" = none) :
    runScript st =
      ([.opened "README.md", .readAll "README.md", .closed "README.md",
        .openFailed "LICENSE"],
       .error (.fileNotFound "LICENSE")) := by
  simp [runScript, withOpenRead, h₁, h₂]

/-- Witness for C4 at `readmeOnlyState`. -/
theorem license_absent_fails_after_readme_witness :
    runScript readmeOnlyState =
      ([.opened "README.md", .readAll "README.md", .closed "README.md",
        .openFailed "LICENSE"],
       .error (.fileNotFound "LICENSE")) :=
  license_absent_fails_after_readme readmeOnlyState "# ESL companion code"
    (by decide) (by decide)

/-- C5: every successful run hands the packaging tool exactly the
declared `install_requires` list, in declared order, and every entry of
that list parses as a (name, version-constraint) pair. -/
theorem install_requires_ordered_and_parseable :
    (∀ st : WorkState, ∀ d : PackageDescriptor,
      (runScript st).2 = Except.ok d → d.install_requires = install_requires) ∧
    install_requires.all (fun s => (parseDep s).isSome) = true := by
  constructor
  · intro st d h
    rcases hr : st.files "README.md" with _ | r
    · simp [runScript, withOpenRead, hr] at h
    · rcases hl : st.files "LICENSE" with _ | l
      · simp [runScript, withOpenRead, hr, hl] at h
      · simp [runScript, withOpenRead, hr, hl] at h
        rw [← h]
  · decide

/-- Witness for C5 at `sampleState` and `sampleDescriptor`. -/
theorem install_requires_ordered_and_parseable_witness :
    sampleDescriptor.install_requires = install_requires ∧
    install_requires.all (fun s => (parseDep s).isSome) = true :=
  ⟨install_requires_ordered_and_parseable.1 sampleState sampleDescriptor (by decide),
   install_requires_ordered_and_parseable.2⟩

mutual

/-- Helper for C6, proved mutually with its forest version: a directory
tree containing no importable sub-package markers contributes no dotted
paths. -/
theorem findPkgsTree_eq_nil (pre : String) (t : DirTree)
    (h : markerCountTree t = 0) : findPkgsTree pre t = [] := by
  match t with
  | .dir n m cs =>
    rw [markerCountTree] at h
    cases m with
    | true => simp at h
    | false =>
      simp only [Bool.false_eq_true, if_false, Nat.zero_add] at h
      rw [findPkgsTree]
      simp only [Bool.false_eq_true, if_false, List.nil_append]
      exact findPkgsForest_eq_nil (if pre = "" then n else pre ++ "." ++ n) cs h

/-- Helper for C6: a forest containing no importable sub-package markers
yields no dotted paths. -/
theorem findPkgsForest_eq_nil (pre : String) (ts : List DirTree)
    (h : markerCountForest ts = 0) : findPkgsForest pre ts = [] := by
  match ts with
  | [] => rw [findPkgsForest]
  | t :: rest =>
    rw [markerCountForest] at h
    rw [findPkgsForest, findPkgsTree_eq_nil pre t (by omega),
      findPkgsForest_eq_nil pre rest (by omega)]
    rfl

end

/-- C6: a working directory with zero importable sub-package markers
makes package discovery return the empty set of dotted paths rather
than raising an error. -/
theorem find_packages_empty_of_no_markers (wd : List DirTree)
    (h : markerCountForest wd = 0) : find_packages wd = [] :=
  findPkgsForest_eq_nil "" wd h

/-- Witness for C6 on a marker-free working directory. -/
theorem find_packages_empty_of_no_markers_witness :
    markerCountForest [.dir "docs" false [.dir "img" false []]] = 0 ∧
    find_packages [.dir "docs" false [.dir "img" false []]] = [] :=
  ⟨by decide,
   find_packages_empty_of_no_markers [.dir "docs" false [.dir "img" false []]]
     (by decide)⟩

/-- C7: for every working state and every file name, the run's event
trace contains exactly as many handle opens as handle closes of that
file: each scoped read releases its handle both on normal completion
and on the failure paths, and a failed open acquires no handle. -/
theorem file_handles_balanced (st : WorkState) (n : String) :
    (runScript st).1.count (.opened n) = (runScript st).1.count (.closed n) := by
  rcases hr : st.files "README.md" with _ | r
  · simp [runScript, withOpenRead, hr, List.count_cons]
  · rcases hl : st.files "LICENSE" with _ | l
    · simp [runScript, withOpenRead, hr, hl, List.count_cons, List.count_nil]
    · simp [runScript, withOpenRead, hr, hl, List.count_cons, List.count_nil]

/-- Helper for C8: on every successful run, every descriptor field
other than `long_description` and `packages` equals the corresponding
literal of the `setup(...)` call. -/
theorem descriptor_literal_fields (st : WorkState) (d : PackageDescriptor)
    (h : (runScript st).2 = Except.ok d) :
    d.name = "esl" ∧ d.version = "0.0.1" ∧ d.author = "Arief Koesdwiady" ∧
    d.author_email = "ariefbarkah@gmail.com" ∧
    d.description =
      "This repo contains python implementation of the book Elements of Statistical Learning" ∧
    d.long_description_content_type = "text/markdown" ∧
    d.url = "https://github.com/abkoesdw/The-Elements-of-Statistical-Learning-Python-Codes.git" ∧
    d.install_requires = install_requires ∧
    d.license = "MIT License" ∧
    d.classifiers = classifiers ∧
    d.python_requires = ">=3" := by
  rcases hr : st.files "README.md" with _ | r
  · simp [runScript, withOpenRead, hr] at h
  · rcases hl : st.files "LICENSE" with _ | l
    · simp [runScript, withOpenRead, hr, hl] at h
    · simp [runScript, withOpenRead, hr, hl] at h
      rw [← h]
      exact ⟨rfl, rfl, rfl, rfl, rfl, rfl, rfl, rfl, rfl, rfl, rfl⟩

/-- C8: for any two successful runs, with arbitrary readme and license
contents, every descriptor field among name, version, author,
author_email, description, long_description_content_type, url,
install_requires, license, classifiers and python_requires is
identical: each is a literal constant independent of the filesystem. -/
theorem constant_fields_independent_of_fs (st₁ st₂ : WorkState)
    (d₁ d₂ : PackageDescriptor)
    (h₁ : (runScript st₁).2 = Except.ok d₁)
    (h₂ : (runScript st₂).2 = Except.ok d₂) :
    d₁.name = d₂.name ∧ d₁.version = d₂.version ∧ d₁.author = d₂.author ∧
    d₁.author_email = d₂.author_email ∧ d₁.description = d₂.description ∧
    d₁.long_description_content_type = d₂.long_description_content_type ∧
    d₁.url = d₂.url ∧ d₁.install_requires = d₂.install_requires ∧
    d₁.license = d₂.license ∧ d₁.classifiers = d₂.classifiers ∧
    d₁.python_requires = d₂.python_requires := by
  obtain ⟨a₁, b₁, c₁, e₁, f₁, g₁, i₁, j₁, k₁, l₁, m₁⟩ :=
    descriptor_literal_fields st₁ d₁ h₁
  obtain ⟨a₂, b₂, c₂, e₂, f₂, g₂, i₂, j₂, k₂, l₂, m₂⟩ :=
    descriptor_literal_fields st₂ d₂ h₂
  simp_all

/-- The descriptor `runScript` constructs on `emptyLicenseState`. -/
def emptyLicenseDescriptor : PackageDescriptor :=
  { sampleDescriptor with long_description := "", packages := [] }

/-- Witness for C8 on two runs with different readme-independent and
license contents. -/
theorem constant_fields_independent_of_fs_witness :
    sampleDescriptor.name = emptyLicenseDescriptor.name ∧
    sampleDescriptor.version = emptyLicenseDescriptor.version ∧
    sampleDescriptor.author = emptyLicenseDescriptor.author ∧
    sampleDescriptor.author_email = emptyLicenseDescriptor.author_email ∧
    sampleDescriptor.description = emptyLicenseDescriptor.description ∧
    sampleDescriptor.long_description_content_type =
      emptyLicenseDescriptor.long_description_content_type ∧
    sampleDescriptor.url = emptyLicenseDescriptor.url ∧
    sampleDescriptor.install_requires = emptyLicenseDescriptor.install_requires ∧
    sampleDescriptor.license = emptyLicenseDescriptor.license ∧
    sampleDescriptor.classifiers = emptyLicenseDescriptor.classifiers ∧
    sampleDescriptor.python_requires = emptyLicenseDescriptor.python_requires :=
  constant_fields_independent_of_fs sampleState emptyLicenseState
    sampleDescriptor emptyLicenseDescriptor (by decide) (by decide)

/-- C9: the `install_requires` list has exactly the eight declared
entries in declared order; `pandas` is the only entry pinned with `==`
while every other entry declares a `>=` lower bound; and no entry
mentions `ml-datasets`, whose line is commented out in the source. -/
theorem install_requires_exact_contents :
    install_requires =
      ["numpy>=1.19.0", "matplotlib>=3.2.2", "scipy>=1.5.1", "tqdm>=4.47.0",
       "flake8>=3.8.3", "black>=19.10b0", "scikit-learn>=0.23.1",
       "pandas==1.1.0"] ∧
    install_requires.length = 8 ∧
    install_requires.filter
        (fun s => match parseDep s with
          | some (_, op, _) => op == "=="
          | none => false) = ["pandas==1.1.0"] ∧
    (install_requires.filter (fun s => !(s == "pandas==1.1.0"))).all
        (fun s => match parseDep s with
          | some (_, op, _) => op == ">="
          | none => false) = true ∧
    install_requires.all
        (fun s => !(beginsWith "ml-datasets".toList s.toList)) = true ∧
    "ml-datasets@git+https://github.com/abkoesdw/ml-datasets.git@dev" ∉
      install_requires := by
  decide

/-- C10: descriptor construction is deterministic: two runs that agree
on the readme contents, the license contents and the discovered package
set produce identical traces and identical descriptors. -/
theorem construction_deterministic (st₁ st₂ : WorkState)
    (h₁ : st₁.files "README.md" = st₂.files "README.md")
    (h₂ : st₁.files "LICENSE" = st₂.files "LICENSE")
    (h₃ : find_packages st₁.tree = find_packages st₂.tree) :
    runScript st₁ = runScript st₂ := by
  have hr₂ := h₁.symm
  have hl₂ := h₂.symm
  rcases hr : st₁.files "README.md" with _ | r
  · rw [hr] at hr₂
    simp [runScript, withOpenRead, hr, hr₂]
  · rw [hr] at hr₂
    rcases hl : st₁.files "LICENSE" with _ | l
    · rw [hl] at hl₂
      simp [runScript, withOpenRead, hr, hr₂, hl, hl₂]
    · rw [hl] at hl₂
      simp [runScript, withOpenRead, hr, hr₂, hl, hl₂, h₃]

/-- Witness for C10 on two states differing only in an unrelated extra
file. -/
theorem construction_deterministic_witness :
    runScript sampleState = runScript sampleStateExtra :=
  construction_deterministic sampleState sampleStateExtra
    (by decide) (by decide) (by decide)

end ESLSetup
